import Mathlib

/-!
Verification of the puck code generators.

This file shallowly embeds the three code-generation entry points of the
repository and proves properties about them:

* `generateJSX` / `generateComponent` and their helpers from
  `src/unnamed/part_001` (modelled here with the suffix `001`);
* `generateReactCode` and its helpers from
  `src/packages/core/lib/codegen/generate-react-code.ts` (suffix `RC`);
* `generateReactComponent` and its helpers from
  `src/packages/core/lib/codegen/generate-react.ts` (suffix `R`).

Modelling conventions:

* JavaScript values flowing through props are modelled by the inductive
  type `Value`.  JS numbers are restricted to integers (no claim depends
  on float formatting).  The `CodegenExpression` duck-typed wrapper
  (an object with a `__codegen` string field) is modelled by the tagged
  constructor `Value.vCodegen`, following the declared TS type.
* JS `Map`s and plain objects are modelled as insertion-ordered
  association lists; `Map.set` keeps the position of an existing key.
* Recursive tree walks take an explicit `fuel : Nat` argument so that all
  definitions are structural and compute inside the kernel.  Fuel is an
  artificial bound only: every theorem below either holds for all fuel
  values or quantifies the fuel explicitly.
* `String.prototype.localeCompare` is modelled as code-point comparison
  (`strLe`).
* Mutable registries (`ImportRegistry`, `importBuckets`, `ctx.imports`)
  are threaded through the functions as explicit state.
-/

/-- Association-list lookup, modelling `map.get(k)` / `obj[k]`. -/
def lookupA {α : Type} (l : List (String × α)) (k : String) : Option α :=
  (l.find? (fun kv => kv.1 == k)).map (fun kv => kv.2)

/-- Association-list update, modelling `map.set(k, v)`: replaces in place
when the key is present (JS maps keep insertion order), appends otherwise. -/
def setA {α : Type} (l : List (String × α)) (k : String) (v : α) : List (String × α) :=
  if l.any (fun kv => kv.1 == k) then
    l.map (fun kv => if kv.1 == k then (k, v) else kv)
  else
    l ++ [(k, v)]

/-- Association-list removal, modelling `delete obj[k]`. -/
def eraseA {α : Type} (l : List (String × α)) (k : String) : List (String × α) :=
  l.filter (fun kv => !(kv.1 == k))

/-- JS truthiness of a `string | undefined` value (`undefined` and the
empty string are falsy). -/
def truthyS : Option String → Bool
  | some s => !(s == "")
  | none => false

/-- Character-level containment test (`code.includes(c)`). -/
def containsCharL : List Char → Char → Bool
  | [], _ => false
  | c :: cs, t => c == t || containsCharL cs t

/-- String containment of a single character, modelling `s.includes(c)`. -/
def containsChar (s : String) (t : Char) : Bool := containsCharL s.data t

/-- The whitespace characters stripped by `String.prototype.trim` that can
occur in generated output. -/
def isJsSpace (c : Char) : Bool := c == ' ' || c == '\n' || c == '\t' || c == '\r'

/-- Drop leading whitespace characters from a character list. -/
def dropLeadingSpace : List Char → List Char
  | [] => []
  | c :: cs => if isJsSpace c then dropLeadingSpace cs else c :: cs

/-- `s.trim()`. -/
def jsTrim (s : String) : String :=
  String.mk (dropLeadingSpace (dropLeadingSpace s.data.reverse).reverse)

/-- `s.replace(/\s+$/g, "")`: strip trailing whitespace only. -/
def jsTrimEnd (s : String) : String :=
  String.mk (dropLeadingSpace s.data.reverse).reverse

/-- Helper for `splitLines`. -/
def splitLinesAux : List Char → List Char → List String
  | [], acc => [String.mk acc.reverse]
  | c :: cs, acc =>
    if c == '\n' then String.mk acc.reverse :: splitLinesAux cs []
    else splitLinesAux cs (c :: acc)

/-- `s.split("\n")`. -/
def splitLines (s : String) : List String := splitLinesAux s.data []

/-- Code-point lexicographic comparison on character lists; this is the
model of `a.localeCompare(b) <= 0` used for the sort comparators. -/
def lexLeL : List Char → List Char → Bool
  | [], _ => true
  | _ :: _, [] => false
  | c :: cs, d :: ds =>
    if c.toNat < d.toNat then true
    else if d.toNat < c.toNat then false
    else lexLeL cs ds

/-- Code-point lexicographic comparison of strings. -/
def strLe (a b : String) : Bool := lexLeL a.data b.data

theorem lexLeL_trans :
    ∀ a b c : List Char, lexLeL a b = true → lexLeL b c = true → lexLeL a c = true := by
  intro a
  induction a with
  | nil => intro b c _ _; rfl
  | cons x xs ih =>
    intro b c hab hbc
    cases b with
    | nil => simp [lexLeL] at hab
    | cons y ys =>
      cases c with
      | nil => simp [lexLeL] at hbc
      | cons z zs =>
        simp only [lexLeL] at hab hbc ⊢
        rcases Nat.lt_trichotomy x.toNat y.toNat with h1 | h1 | h1 <;>
          rcases Nat.lt_trichotomy y.toNat z.toNat with h2 | h2 | h2 <;>
          simp_all [Nat.lt_irrefl] <;>
          first
            | (exact Nat.lt_trans h1 h2)
            | (exact ih ys zs hab hbc)
            | omega

theorem lexLeL_total :
    ∀ a b : List Char, lexLeL a b = true ∨ lexLeL b a = true := by
  intro a
  induction a with
  | nil => intro b; left; rfl
  | cons x xs ih =>
    intro b
    cases b with
    | nil => right; rfl
    | cons y ys =>
      simp only [lexLeL]
      rcases Nat.lt_trichotomy x.toNat y.toNat with h | h | h
      · left; simp [h]
      · have := ih ys
        simp [h, Nat.lt_irrefl]
        exact this
      · right; simp [h, Nat.not_lt_of_lt h]

/-- The ordering used by every `.sort((a, b) => key(a).localeCompare(key(b)))`
call in the sources, parameterised by the sort key. -/
def keyRel {α : Type} (key : α → String) (a b : α) : Prop :=
  strLe (key a) (key b) = true

instance {α : Type} (key : α → String) : DecidableRel (keyRel key) :=
  fun a b => inferInstanceAs (Decidable (strLe (key a) (key b) = true))

instance {α : Type} (key : α → String) : IsTotal α (keyRel key) :=
  ⟨fun a b => lexLeL_total (key a).data (key b).data⟩

instance {α : Type} (key : α → String) : IsTrans α (keyRel key) :=
  ⟨fun a b c => lexLeL_trans (key a).data (key b).data (key c).data⟩

/-- `Array.prototype.sort` with a `localeCompare` comparator, modelled as a
stable comparison sort. -/
def sortByKey {α : Type} (key : α → String) (l : List α) : List α :=
  List.insertionSort (keyRel key) l

/-- A JavaScript runtime value as it occurs in content-node props. -/
inductive Value where
  | vUndefined
  | vNull
  | vBool (b : Bool)
  | vNum (n : Int)
  | vStr (s : String)
  | vArr (items : List Value)
  | vObj (fields : List (String × Value))
  | vCodegen (code : String)

/-- Property access `v[k]` on a value: only objects yield fields, any
other receiver yields `undefined` (accessing a property of `null` would
throw in JS; content nodes are always objects, so this is not modelled). -/
def getFieldV : Value → String → Value
  | .vObj fs, k => (lookupA fs k).getD .vUndefined
  | _, _ => .vUndefined

/-- JS string coercion `String(v)` as used for `item.type`.  The coercion
of composite values is approximated (only strings occur in real content). -/
def jsToString : Value → String
  | .vStr s => s
  | .vNum n => toString n
  | .vBool b => if b then "true" else "false"
  | .vNull => "null"
  | .vUndefined => "undefined"
  | .vArr _ => ""
  | .vObj _ => "[object Object]"
  | .vCodegen _ => "[object Object]"

/-- JS truthiness of a value. -/
def isTruthy : Value → Bool
  | .vUndefined => false
  | .vNull => false
  | .vBool b => b
  | .vNum n => !(n == 0)
  | .vStr s => !(s == "")
  | _ => true

/-- Escape one character the way `JSON.stringify` escapes string contents
(control characters other than the common ones are not modelled). -/
def jsonEscapeChar (c : Char) : String :=
  if c == '"' then "\\\""
  else if c == '\\' then "\\\\"
  else if c == '\n' then "\\n"
  else if c == '\r' then "\\r"
  else if c == '\t' then "\\t"
  else String.mk [c]

/-- Escape the characters of a string for a JSON string literal. -/
def jsonEscape (l : List Char) : String :=
  match l with
  | [] => ""
  | c :: cs => jsonEscapeChar c ++ jsonEscape cs

/-- `JSON.stringify` of a string value. -/
def jsonQuote (s : String) : String := "\"" ++ jsonEscape s.data ++ "\""

mutual
/-- `JSON.stringify(v)` (cycles and functions are not representable in
`Value`; a top-level `undefined` — which returns `undefined` rather than a
string in JS — is unreachable from the call sites modelled here). -/
def jsonStringify : Value → String
  | .vUndefined => "undefined"
  | .vNull => "null"
  | .vBool b => if b then "true" else "false"
  | .vNum n => toString n
  | .vStr s => jsonQuote s
  | .vArr items => "[" ++ String.intercalate "," (jsonArrayItems items) ++ "]"
  | .vObj fs => "\x7b" ++ String.intercalate "," (jsonObjectFields fs) ++ "\x7d"
  | .vCodegen c => "\x7b\"__codegen\":" ++ jsonQuote c ++ "\x7d"

/-- Array elements under `JSON.stringify`: `undefined` becomes `null`. -/
def jsonArrayItems : List Value → List String
  | [] => []
  | .vUndefined :: vs => "null" :: jsonArrayItems vs
  | v :: vs => jsonStringify v :: jsonArrayItems vs

/-- Object fields under `JSON.stringify`: `undefined`-valued keys are omitted. -/
def jsonObjectFields : List (String × Value) → List String
  | [] => []
  | (_, .vUndefined) :: fs => jsonObjectFields fs
  | (k, v) :: fs => (jsonQuote k ++ ":" ++ jsonStringify v) :: jsonObjectFields fs
end

/-- A field descriptor from the component schema (the `Field` entries of
`Fields` in the sources); `type` is the field kind string (`"text"`,
`"slot"`, `"array"`, ...).  Named `FieldDesc` because `Field` is taken by
Mathlib. -/
inductive FieldDesc where
  | mk (type : String)
       (arrayFields : Option (List (String × FieldDesc)))
       (objectFields : Option (List (String × FieldDesc)))

/-- The field kind string. -/
def FieldDesc.type : FieldDesc → String
  | .mk t _ _ => t

/-- The nested schema of an `array` field. -/
def FieldDesc.arrayFields : FieldDesc → Option (List (String × FieldDesc))
  | .mk _ a _ => a

/-- The nested schema of an `object` field. -/
def FieldDesc.objectFields : FieldDesc → Option (List (String × FieldDesc))
  | .mk _ _ o => o

/-- `ComponentCodegenImport` from `src/unnamed/part_000`: either a
named import `{ path, name, alias? }` or a default `{ path, default }`
(the local name of the default import is stored in `localName`). -/
inductive CCImport where
  | named (path : String) (name : String) (aliasName : Option String)
  | defaultImp (path : String) (localName : String)

/-- The `path` of an import spec. -/
def CCImport.path : CCImport → String
  | .named p _ _ => p
  | .defaultImp p _ => p

/-- `CodegenSlots`: slot name to `CodegenExpression | null`; the
expression is represented by its `__codegen` string. -/
abbrev CodegenSlots : Type := List (String × Option String)

/-- The `codegen` block of a component config in `src/unnamed/part_000`
(`ComponentCodegenConfig`).  `importSpecs` models the
`import?: Spec | Spec[]` field after the source's own
`Array.isArray(importConfig) ? importConfig : [importConfig]`
normalisation, with `[]` for an absent field.  `skip` models
`skip?: boolean` with `false` for `undefined`. -/
structure CodegenCfg001 where
  component : Option String
  importSpecs : List CCImport
  mapProps : Option (List (String × Value) → CodegenSlots → Option (List (String × Value)))
  skip : Bool

/-- One entry of `config.components` as consumed by `generateJSX`
(the `render` function and other editor-only fields are never read by the
code generator and are omitted). -/
structure Component001 where
  fields : Option (List (String × FieldDesc))
  codegen : Option CodegenCfg001

/-- The `Config` consumed by the generators. -/
structure Config001 where
  components : List (String × Component001)

/-- `RenderContext` without the mutable import registry (which is threaded
explicitly). -/
structure Ctx001 where
  config : Config001
  indentSize : Nat

/-- One value of the `ImportRegistry` map in `src/unnamed/part_001`:
`{ default?: string; named: Map<string, string | undefined> }`. -/
structure RegEntry001 where
  defaultName : Option String
  named : List (String × Option String)
deriving DecidableEq

/-- The `ImportRegistry` map, keyed by path. -/
abbrev Registry001 : Type := List (String × RegEntry001)

/-- `GeneratedImport` from `src/unnamed/part_001`; `defaultName` models the
`default?` field and `named` the `{ name, alias? }` specifier list. -/
structure NamedSpec where
  name : String
  aliasName : Option String
deriving DecidableEq

/-- A finalized import entry (`GeneratedImport`). -/
structure GeneratedImport where
  path : String
  defaultName : Option String
  named : List NamedSpec
deriving DecidableEq

/-- The result of `generateJSX` (`GeneratedTree`). -/
structure GeneratedTree where
  jsx : String
  imports : List GeneratedImport
deriving DecidableEq

/-- `indent(depth, indentSize)`: `" ".repeat(depth * indentSize)`
(non-positive depth yields the empty string, as does `repeat 0`). -/
def indentStr (depth indentSize : Nat) : String :=
  String.replicate (depth * indentSize) ' '

/-- `indentLines(code, depth, indentSize)`: prefix every nonempty line. -/
def indentLines (code : String) (depth indentSize : Nat) : String :=
  if code == "" then code
  else
    String.intercalate "\n"
      ((splitLines code).map (fun line =>
        if line == "" then line else indentStr depth indentSize ++ line))

/-- `shiftIndent(code, fromDepth, toDepth, indentSize)`. -/
def shiftIndent (code : String) (fromDepth toDepth indentSize : Nat) : String :=
  if jsTrim code == "" then ""
  else if toDepth ≤ fromDepth then code
  else
    String.intercalate "\n"
      ((splitLines code).map (fun line =>
        if line == "" then line else indentStr (toDepth - fromDepth) indentSize ++ line))

/-- `codegenExpression(code)`: the string stored in the `__codegen` field. -/
def codegenExpressionStr (code : String) : String :=
  if containsChar code '\n' then jsTrimEnd code else jsTrim code

/-- `wrapInFragment(code)`. -/
def wrapInFragment (code : String) : String :=
  let trimmed := jsTrim code
  if trimmed == "" then ""
  else if !(containsChar trimmed '\n') then "<>" ++ trimmed ++ "</>"
  else "<>\n" ++ code ++ "\n</>"

/-- `createSlotExpressions(slotStrings)`: an empty rendered slot string
becomes `null`, a nonempty one becomes the `CodegenExpression` wrapping
`wrapInFragment` of the rendered string. -/
def createSlotExpressions001 (slotStrings : List (String × String)) : CodegenSlots :=
  slotStrings.map (fun kv =>
    (kv.1, if !(jsTrim kv.2 == "") then some (codegenExpressionStr (wrapInFragment kv.2)) else none))

/-- `getSlotFieldNames(fields)`. -/
def getSlotFieldNames (fields : Option (List (String × FieldDesc))) : List String :=
  match fields with
  | none => []
  | some fs => (fs.filter (fun kv => kv.2.type == "slot")).map (fun kv => kv.1)

/-- `formatAttribute(key, value, depth, indentSize)` from
`src/unnamed/part_001`: `undefined` yields no attribute; a
`CodegenExpression` is emitted verbatim (indented when multiline); other
values are emitted as literals, arrays and objects via `JSON.stringify`. -/
def formatAttribute001 (key : String) (value : Value) (depth indentSize : Nat) : Option String :=
  match value with
  | .vUndefined => none
  | .vCodegen code =>
    if !(containsChar code '\n') then
      some (key ++ "=\x7b" ++ code ++ "\x7d")
    else
      some (key ++ "=\x7b\n" ++ indentLines code (depth + 1) indentSize ++ "\n"
        ++ indentStr depth indentSize ++ "\x7d")
  | .vNull => some (key ++ "=\x7bnull\x7d")
  | .vStr s => some (key ++ "=" ++ jsonQuote s)
  | .vNum n => some (key ++ "=\x7b" ++ toString n ++ "\x7d")
  | .vBool b => some (key ++ "=\x7b" ++ (if b then "true" else "false") ++ "\x7d")
  | .vArr items => some (key ++ "=\x7b" ++ jsonStringify (.vArr items) ++ "\x7d")
  | .vObj fs => some (key ++ "=\x7b" ++ jsonStringify (.vObj fs) ++ "\x7d")

/-- `buildElement({name, attributes, children, depth, indentSize})`. -/
def buildElement001 (name : String) (attributes : List String) (children : String)
    (depth indentSize : Nat) : String :=
  let indentBase := indentStr depth indentSize
  let attrBlock :=
    if attributes.isEmpty then ""
    else
      "\n" ++ String.intercalate "\n"
          (attributes.map (fun a => indentStr (depth + 1) indentSize ++ a))
        ++ "\n" ++ indentBase
  if jsTrim children == "" then
    indentBase ++ "<" ++ name ++ attrBlock ++ " />"
  else
    indentBase ++ "<" ++ name ++ attrBlock ++ ">\n" ++ children ++ "\n"
      ++ indentBase ++ "</" ++ name ++ ">"

/-- `registerImport(registry, importConfig)` from `src/unnamed/part_001`.
For a default import it keeps an already-present default name (conflicts
are silently ignored); for a named import it unconditionally overwrites
the alias stored for that exported name.  It never fails. -/
def registerImport001 (registry : Registry001) (specs : List CCImport) : Registry001 :=
  specs.foldl (fun reg spec =>
    let next := (lookupA reg spec.path).getD { defaultName := none, named := [] }
    match spec with
    | .defaultImp _ d =>
      if truthyS next.defaultName then setA reg spec.path next
      else setA reg spec.path { next with defaultName := some d }
    | .named _ n a => setA reg spec.path { next with named := setA next.named n a }) registry

/-- `formatImports(registry)`: project registry entries to
`GeneratedImport`s, drop entries with neither a (truthy) default nor any
named specifiers, sort each entry's named specifiers by exported name,
and sort the entries by path. -/
def formatImports001 (registry : Registry001) : List GeneratedImport :=
  sortByKey GeneratedImport.path
    (((registry.map (fun kv =>
        ({ path := kv.1, defaultName := kv.2.defaultName,
           named := kv.2.named.map (fun nv => { name := nv.1, aliasName := nv.2 }) }
          : GeneratedImport)))
      |>.filter (fun e => truthyS e.defaultName || !e.named.isEmpty))
      |>.map (fun e => { e with named := sortByKey NamedSpec.name e.named }))

/-- One named specifier as printed by `formatImportStatements`
(`alias ? name as alias : name`, with an empty alias falsy). -/
def fmtNamedSpec001 (s : NamedSpec) : String :=
  match s.aliasName with
  | some a => if a == "" then s.name else s.name ++ " as " ++ a
  | none => s.name

/-- `formatImportStatements(imports)`: the default specifier (if truthy)
precedes the braced named specifiers; entries with no parts are dropped. -/
def formatImportStatements001 (imports : List GeneratedImport) : List String :=
  imports.filterMap (fun entry =>
    let named := String.intercalate ", " (entry.named.map fmtNamedSpec001)
    let parts :=
      (match entry.defaultName with
        | some d => if d == "" then [] else [d]
        | none => []) ++
      (if named == "" then [] else ["\x7b " ++ named ++ " \x7d"])
    if parts.isEmpty then none
    else some ("import " ++ String.intercalate ", " parts ++ " from \"" ++ entry.path ++ "\";"))

/-- The error used when the artificial fuel bound is exhausted (stands in
for call-stack exhaustion on pathologically deep trees). -/
def outOfFuel : String := "out of fuel"

mutual
/-- `renderContent(content, depth, context)` from `src/unnamed/part_001`:
render every node in order, drop the `null` results of skipped nodes, and
join the rest with newlines.  The `filter(Boolean)` of the source is fused
into the fold (a rendered node string is never empty, so `Boolean`
filtering coincides with dropping `null`). -/
def renderContent001 (content : List Value) (depth : Nat) (ctx : Ctx001)
    (reg : Registry001) (fuel : Nat) : Except String (String × Registry001) :=
  if content.isEmpty then .ok ("", reg)
  else
    match fuel with
    | 0 => .error outOfFuel
    | f + 1 => do
      let walked ← content.foldlM
        (fun (acc : List String × Registry001) item => do
          let r ← renderNode001 item depth ctx acc.2 f
          .ok (acc.1 ++ (match r.1 with | some s => [s] | none => []), r.2))
        ([], reg)
      .ok (String.intercalate "\n" walked.1, walked.2)
termination_by structural fuel

/-- `renderNode(item, depth, context)` from `src/unnamed/part_001`.
Fails when the node's type has no entry in `config.components`; returns
`none` (the source's `null`) without touching props, slots or the import
registry when the config's `codegen.skip` is truthy; otherwise extracts
slot content, renders each slot at depth 1, applies `mapProps` (or the
default mapping), registers the config's import specs and builds the
element text. -/
def renderNode001 (item : Value) (depth : Nat) (ctx : Ctx001)
    (reg : Registry001) (fuel : Nat) : Except String (Option String × Registry001) :=
  match lookupA ctx.config.components (jsToString (getFieldV item "type")) with
  | none =>
    .error ("No component config found for \"" ++ jsToString (getFieldV item "type") ++ "\".")
  | some comp =>
    if (comp.codegen.map (fun cg => cg.skip)).getD false then .ok (none, reg)
    else
      match fuel with
      | 0 => .error outOfFuel
      | f + 1 => do
        let props0 :=
          match getFieldV item "props" with
          | .vObj fs => fs
          | _ => []
        let slotNames := getSlotFieldNames comp.fields
        let slotContent := slotNames.map (fun n =>
          (n, match lookupA props0 n with
              | some (.vArr xs) => xs
              | _ => []))
        let props1 := slotNames.foldl (fun ps n => eraseA ps n) props0
        let props2 := eraseA (eraseA props1 "id") "puck"
        let slotWalk ← slotContent.foldlM
          (fun (acc : List (String × String) × Registry001) kv => do
            let r ← renderContent001 kv.2 1 ctx acc.2 f
            .ok (acc.1 ++ [(kv.1, r.1)], r.2))
          ([], reg)
        let slotStrings := slotWalk.1
        let reg1 := slotWalk.2
        let slotExpressions := createSlotExpressions001 slotStrings
        let mappedProps :=
          match comp.codegen.bind (fun cg => cg.mapProps) with
          | some f => (f props2 slotExpressions).getD props2
          | none => props2
        let attributes := mappedProps.filterMap
          (fun kv => formatAttribute001 kv.1 kv.2 (depth + 1) ctx.indentSize)
        let attributes :=
          if (comp.codegen.bind (fun cg => cg.mapProps)).isNone then
            attributes ++ slotExpressions.filterMap (fun kv =>
              if kv.1 == "children" then none
              else
                match kv.2 with
                | none => none
                | some e => formatAttribute001 kv.1 (.vCodegen e) (depth + 1) ctx.indentSize)
          else attributes
        let componentName :=
          match comp.codegen.bind (fun cg => cg.component) with
          | some c => if c == "" then jsToString (getFieldV item "type") else c
          | none => jsToString (getFieldV item "type")
        let reg2 := registerImport001 reg1
          (match comp.codegen with | some cg => cg.importSpecs | none => [])
        let children :=
          if (comp.codegen.bind (fun cg => cg.mapProps)).isNone then
            match lookupA slotStrings "children" with
            | some s => if s == "" then "" else shiftIndent s 1 (depth + 1) ctx.indentSize
            | none => ""
          else ""
        .ok (some (buildElement001 componentName attributes children depth ctx.indentSize), reg2)
termination_by structural fuel
end

/-- `generateJSX({config, data, baseDepth, indentSize})` from
`src/unnamed/part_001`.  `content` is `data.content || []` (the `root` and
`zones` fields of `Data` are never read by the generator). -/
def generateJSX001 (config : Config001) (content : List Value)
    (baseDepth indentSize : Nat) (fuel : Nat) : Except String GeneratedTree := do
  let ctx : Ctx001 := { config := config, indentSize := indentSize }
  let body ← renderContent001 content (baseDepth + 1) ctx [] fuel
  let baseIndent := indentStr baseDepth indentSize
  let jsx :=
    if !(jsTrim body.1 == "") then baseIndent ++ "<>\n" ++ body.1 ++ "\n" ++ baseIndent ++ "</>"
    else baseIndent ++ "<></>"
  .ok { jsx := jsx, imports := formatImports001 body.2 }

/-- The result of `generateComponent` (`GeneratedComponent`). -/
structure GeneratedComponent where
  jsx : String
  imports : List GeneratedImport
  code : String
  importStatements : List String
deriving DecidableEq

/-- `generateComponent({componentName, baseDepth, ...options})` from
`src/unnamed/part_001` (defaults: name `"PuckComponent"`, `baseDepth = 2`). -/
def generateComponent001 (config : Config001) (content : List Value)
    (componentName : String) (baseDepth indentSize : Nat) (fuel : Nat) :
    Except String GeneratedComponent := do
  let tree ← generateJSX001 config content baseDepth indentSize fuel
  let importStatements := formatImportStatements001 tree.imports
  let component :=
    "export function " ++ componentName ++ "() \x7b\n  return (\n" ++ tree.jsx ++ "\n  );\n\x7d"
  let code :=
    if !importStatements.isEmpty then
      String.intercalate "\n" importStatements ++ "\n\n" ++ component
    else component
  .ok { jsx := tree.jsx, imports := tree.imports, code := code,
        importStatements := importStatements }

/-- `CodegenImport` from `generate-react-code.ts`:
`{ path, name?, default? }`; `isDefault` models the optional boolean field
named `default` (`undefined` is falsy). -/
structure CodegenImportRC where
  path : String
  name : Option String
  isDefault : Bool
deriving DecidableEq

/-- `ImportRecord` from `generate-react-code.ts`. -/
structure ImportRecordRC where
  defaultImport : Option String
  named : List NamedSpec
deriving DecidableEq

/-- The `ctx.imports` map, keyed by path. -/
abbrev ImportsRC : Type := List (String × ImportRecordRC)

/-- `CodegenComponentConfig` from `generate-react-code.ts`; `asName`
models the `as?` field and `transformProps` receives the raw component
value and the cleaned props. -/
structure CodegenComponentConfigRC where
  asName : Option String
  importCfg : Option CodegenImportRC
  omitProps : List String
  preserveId : Bool
  transformProps : Option (Value → List (String × Value) → List (String × Value))

/-- `InternalContext` without the mutable import map (threaded
explicitly). -/
structure CtxRC where
  componentMap : List (String × CodegenComponentConfigRC)
  omitIds : Bool

/-- `isComponentData(value)`: a non-null object (arrays excluded by the
key check) carrying both a `type` and a `props` key. -/
def isComponentDataRC : Value → Bool
  | .vObj fs => fs.any (fun kv => kv.1 == "type") && fs.any (fun kv => kv.1 == "props")
  | _ => false

/-- `indent(level)` from `generate-react-code.ts`: `"  ".repeat(level)`. -/
def indentRC (level : Nat) : String := String.replicate (level * 2) ' '

/-- `registerImport(localName, importConfig, ctx)` from
`generate-react-code.ts`.  For a default import the local name is stored
unconditionally.  For a named import, a duplicate is only detected when
the stored alias strictly equals the local name (`entry.alias ===
localName`); an alias-less entry stores `alias: undefined`, so
re-registration of `{ path, name }` with `localName === name` passes the
guard and pushes a second copy. -/
def registerImportRC (localName : String) (importConfig : CodegenImportRC)
    (imports : ImportsRC) : ImportsRC :=
  let record := (lookupA imports importConfig.path).getD { defaultImport := none, named := [] }
  if importConfig.isDefault then
    setA imports importConfig.path { record with defaultImport := some localName }
  else
    let importName := importConfig.name.getD localName
    let record :=
      if record.named.any (fun e => e.name == importName && e.aliasName == some localName) then
        record
      else
        { record with
          named := record.named ++
            [if localName == importName then { name := importName, aliasName := none }
             else { name := importName, aliasName := some localName }] }
    setA imports importConfig.path record

/-- `buildImports(imports, includeReact)` from `generate-react-code.ts`:
entries sorted by path; within an entry the default line precedes the
named line; the named specifiers keep their registration order. -/
def buildImportsRC (imports : ImportsRC) (includeReact : Bool) : List String :=
  let base := if includeReact then ["import React from \"react\";"] else []
  base ++ (sortByKey (fun kv => kv.1) imports).foldl (fun lines kv =>
    let named := String.intercalate ", " (kv.2.named.map (fun e =>
      match e.aliasName with
      | some a => if !(a == "") && !(a == e.name) then e.name ++ " as " ++ a else e.name
      | none => e.name))
    let hasDefault := truthyS kv.2.defaultImport
    let hasNamed := !(named == "")
    if !hasDefault && !hasNamed then lines
    else if hasDefault && hasNamed then
      lines ++ ["import " ++ kv.2.defaultImport.getD "" ++ " from \"" ++ kv.1 ++ "\";",
                "import \x7b " ++ named ++ " \x7d from \"" ++ kv.1 ++ "\";"]
    else if hasDefault then
      lines ++ ["import " ++ kv.2.defaultImport.getD "" ++ " from \"" ++ kv.1 ++ "\";"]
    else
      lines ++ ["import \x7b " ++ named ++ " \x7d from \"" ++ kv.1 ++ "\";"]) []

/-- The `{ type: "string" | "expression", value }` result of
`formatPropValue`; `isString` is true for the `"string"` tag. -/
structure PropFmtRC where
  isString : Bool
  value : String
deriving DecidableEq

mutual
/-- `formatPropValue(value, depth, ctx)` from `generate-react-code.ts`.
Array elements that satisfy `isComponentData` are rendered as nested
elements via `renderComponent`; all other composite values are emitted as
data literals.  A `CodegenExpression` value is just an object with a
`__codegen` key here and falls into the object branch.  At fuel 0 a
placeholder is returned (the source function is total; fuel only bounds
the recursion depth). -/
def formatPropValueRC (value : Value) (depth : Nat) (ctx : CtxRC)
    (imports : ImportsRC) (fuel : Nat) : PropFmtRC × ImportsRC :=
  match fuel with
  | 0 => ({ isString := false, value := "" }, imports)
  | f + 1 =>
    match value with
    | .vUndefined => ({ isString := false, value := "undefined" }, imports)
    | .vStr s => ({ isString := true, value := jsonQuote s }, imports)
    | .vNum n => ({ isString := false, value := toString n }, imports)
    | .vBool b => ({ isString := false, value := if b then "true" else "false" }, imports)
    | .vNull => ({ isString := false, value := "null" }, imports)
    | .vArr items =>
      if items.isEmpty then ({ isString := false, value := "[]" }, imports)
      else
        let folded := items.foldl (fun (acc : List String × ImportsRC) item =>
          if isComponentDataRC item then
            let r := renderComponentRC item (depth + 1) ctx acc.2 f
            (acc.1 ++ [r.1], r.2)
          else
            let r := formatPropValueRC item (depth + 1) ctx acc.2 f
            (acc.1 ++ [indentRC (depth + 1) ++ r.1.value], r.2)) ([], imports)
        ({ isString := false,
           value := "[\n" ++ String.intercalate ",\n" folded.1 ++ "\n" ++ indentRC depth ++ "]" },
         folded.2)
    | .vObj fs =>
      if isComponentDataRC (.vObj fs) then
        let r := renderComponentRC (.vObj fs) (depth + 2) ctx imports f
        ({ isString := false,
           value := "(\n" ++ r.1 ++ "\n" ++ indentRC (depth + 1) ++ ")" }, r.2)
      else formatObjectRC fs depth ctx imports f
    | .vCodegen c => formatObjectRC [("__codegen", .vStr c)] depth ctx imports f
termination_by structural fuel

/-- The `typeof value === "object"` branch of `formatPropValue`. -/
def formatObjectRC (fs : List (String × Value)) (depth : Nat) (ctx : CtxRC)
    (imports : ImportsRC) (fuel : Nat) : PropFmtRC × ImportsRC :=
  match fuel with
  | 0 => ({ isString := false, value := "" }, imports)
  | f + 1 =>
    let entries := fs.filter (fun kv => match kv.2 with | .vUndefined => false | _ => true)
    if entries.isEmpty then ({ isString := false, value := "\x7b\x7d" }, imports)
    else
      let folded := entries.foldl (fun (acc : List String × ImportsRC) kv =>
        let r := formatPropValueRC kv.2 (depth + 1) ctx acc.2 f
        (acc.1 ++ [indentRC (depth + 1) ++ kv.1 ++ ": " ++ r.1.value], r.2)) ([], imports)
      ({ isString := false,
         value := "\x7b\n" ++ String.intercalate ",\n" folded.1 ++ "\n" ++ indentRC depth ++ "\x7d" },
       folded.2)
termination_by structural fuel

/-- `formatChildren(value, depth, ctx)` from `generate-react-code.ts`. -/
def formatChildrenRC (value : Value) (depth : Nat) (ctx : CtxRC)
    (imports : ImportsRC) (fuel : Nat) : Option String × ImportsRC :=
  match fuel with
  | 0 => (none, imports)
  | f + 1 =>
    match value with
    | .vUndefined => (none, imports)
    | .vNull => (none, imports)
    | .vArr items =>
      if items.isEmpty then (none, imports)
      else
        let folded := items.foldl (fun (acc : List String × ImportsRC) child =>
          if isComponentDataRC child then
            let r := renderComponentRC child depth ctx acc.2 f
            (acc.1 ++ [r.1], r.2)
          else
            let r := formatPropValueRC child depth ctx acc.2 f
            (acc.1 ++ [indentRC depth ++ "\x7b" ++ r.1.value ++ "\x7d"], r.2)) ([], imports)
        (some (String.intercalate "\n" folded.1), folded.2)
    | v =>
      if isComponentDataRC v then
        let r := renderComponentRC v depth ctx imports f
        (some r.1, r.2)
      else
        let r := formatPropValueRC v depth ctx imports f
        (some (indentRC depth ++ "\x7b" ++ r.1.value ++ "\x7d"), r.2)
termination_by structural fuel

/-- `renderComponent(component, depth, ctx)` from `generate-react-code.ts`.
Note that it performs no lookup in `config.components` at all: an unknown
type is rendered with its type string as the tag and the generation never
fails. -/
def renderComponentRC (component : Value) (depth : Nat) (ctx : CtxRC)
    (imports : ImportsRC) (fuel : Nat) : String × ImportsRC :=
  match fuel with
  | 0 => ("", imports)
  | f + 1 =>
    let typeStr := jsToString (getFieldV component "type")
    let mapEntry := lookupA ctx.componentMap typeStr
    let componentName := (mapEntry.bind (fun me => me.asName)).getD typeStr
    let imports :=
      match mapEntry.bind (fun me => me.importCfg) with
      | some ic => registerImportRC componentName ic imports
      | none => imports
    let omitId := ctx.omitIds && !((mapEntry.map (fun me => me.preserveId)).getD false)
    let cleaned0 :=
      eraseA (eraseA
        (match getFieldV component "props" with | .vObj fs => fs | _ => []) "puck") "editMode"
    let cleaned1 := if omitId then eraseA cleaned0 "id" else cleaned0
    let cleaned2 :=
      match mapEntry with
      | some me => me.omitProps.foldl (fun ps p => eraseA ps p) cleaned1
      | none => cleaned1
    let transformed :=
      match mapEntry.bind (fun me => me.transformProps) with
      | some tf => tf component cleaned2
      | none => cleaned2
    let childrenVal := (lookupA transformed "children").getD .vUndefined
    let props := eraseA transformed "children"
    let propEntries := props.filter (fun kv => match kv.2 with | .vUndefined => false | _ => true)
    let folded := propEntries.foldl (fun (acc : List String × ImportsRC) kv =>
      let r := formatPropValueRC kv.2 depth ctx acc.2 f
      let line :=
        if r.1.isString then indentRC depth ++ kv.1 ++ "=" ++ r.1.value
        else indentRC depth ++ kv.1 ++ "=\x7b" ++ r.1.value ++ "\x7d"
      (acc.1 ++ [line], r.2)) ([], imports)
    let propLines := folded.1
    let childrenRes := formatChildrenRC childrenVal (depth + 1) ctx folded.2 f
    let childrenContent := childrenRes.1
    let imports2 := childrenRes.2
    let hasChildren := match childrenContent with | some s => !(s == "") | none => false
    if propLines.isEmpty && !hasChildren then
      (indentRC depth ++ "<" ++ componentName ++ " />", imports2)
    else if !hasChildren then
      (indentRC depth ++ "<" ++ componentName ++ "\n" ++ String.intercalate "\n" propLines
        ++ "\n" ++ indentRC depth ++ " />", imports2)
    else
      let propsString :=
        if propLines.isEmpty then ""
        else "\n" ++ String.intercalate "\n" propLines ++ "\n" ++ indentRC depth
      let childrenString :=
        match childrenContent with
        | some s => if s == "" then "" else "\n" ++ s ++ "\n" ++ indentRC depth
        | none => ""
      (indentRC depth ++ "<" ++ componentName ++ propsString ++ ">" ++ childrenString
        ++ "</" ++ componentName ++ ">", imports2)
termination_by structural fuel
end

/-- The options of `generateReactCode` (with `data.content` extracted,
since `data` is only read through `data.content ?? []`).  The source
accepts a `config` argument but never reads it — in particular it never
checks node types against `config.components`. -/
structure GenerateReactCodeOptionsRC where
  config : Config001
  content : List Value
  componentMap : List (String × CodegenComponentConfigRC)
  componentName : String
  exportDefault : Bool
  includeImports : Bool
  includeReactImport : Bool
  omitIds : Bool
  wrapperOpen : String
  wrapperClose : String

/-- `generateReactCode(options)` from `generate-react-code.ts`, returning
`{ code, imports }`. -/
def generateReactCodeRC (o : GenerateReactCodeOptionsRC) (fuel : Nat) : String × List String :=
  let ctx : CtxRC := { componentMap := o.componentMap, omitIds := o.omitIds }
  let folded := o.content.foldl (fun (acc : List String × ImportsRC) c =>
    let r := renderComponentRC c 2 ctx acc.2 fuel
    (acc.1 ++ [r.1], r.2)) ([], [])
  let bodyContent :=
    if folded.1.isEmpty then indentRC 3 ++ "\x7b/* No components in data */\x7d"
    else String.intercalate "\n\n" folded.1
  let componentBody := [
    "export " ++ (if o.exportDefault then "default " else "") ++ "function "
      ++ o.componentName ++ "() \x7b",
    "  return (",
    "    " ++ o.wrapperOpen,
    bodyContent,
    "    " ++ o.wrapperClose,
    "  );",
    "\x7d"]
  let importLines :=
    if o.includeImports then buildImportsRC folded.2 o.includeReactImport
    else if o.includeReactImport then ["import React from \"react\";"]
    else []
  let code :=
    if !importLines.isEmpty then
      String.intercalate "\n" importLines ++ "\n\n" ++ String.intercalate "\n" componentBody
    else String.intercalate "\n" componentBody
  (code, importLines)

/-- `CodegenImport` from `generate-react.ts`: a named spec
`{ path, import, alias? }` (the exported name is in `imp`) or a default
spec `{ path, default }` (the local name is in `localName`).  The source's
`isDefaultImport` discriminator corresponds to matching the constructor. -/
inductive CodegenImportR where
  | named (path : String) (imp : String) (aliasName : Option String)
  | defaultImp (path : String) (localName : String)

/-- An `ImportBucket` from `generate-react.ts`. -/
structure ImportBucketR where
  named : List (String × Option String)
  defaultName : Option String
deriving DecidableEq

/-- The `importBuckets` map, keyed by path. -/
abbrev BucketsR : Type := List (String × ImportBucketR)

/-- `registerImport` of `generate-react.ts` for a single spec (the body of
the `specs.forEach`).  A default import conflicts when the bucket already
holds a truthy default name different from the incoming one; a named spec
conflicts when the stored alias for that exported name is truthy and
differs from the incoming alias.  Conflicts throw. -/
def registerImportOneR (buckets : BucketsR) (entry : CodegenImportR) :
    Except String BucketsR :=
  match entry with
  | .defaultImp path d =>
    let bucket := (lookupA buckets path).getD { named := [], defaultName := none }
    if truthyS bucket.defaultName && !(bucket.defaultName == some d) then
      .error ("Multiple default imports declared for \"" ++ path ++ "\". Received \""
        ++ bucket.defaultName.getD "" ++ "\" and \"" ++ d ++ "\".")
    else
      .ok (setA buckets path { bucket with defaultName := some d })
  | .named path imp a =>
    let bucket := (lookupA buckets path).getD { named := [], defaultName := none }
    let existingAlias : Option String :=
      match lookupA bucket.named imp with
      | some stored => stored
      | none => none
    if truthyS existingAlias && !(existingAlias == a) then
      .error ("Conflicting aliases declared for \"" ++ imp ++ "\" from \"" ++ path ++ "\".")
    else
      .ok (setA buckets path { bucket with named := setA bucket.named imp a })

/-- `registerImport(spec)` of `generate-react.ts` over the normalised spec
list (`[]` models an absent `spec`). -/
def registerImportsR (buckets : BucketsR) (specs : List CodegenImportR) :
    Except String BucketsR :=
  specs.foldlM registerImportOneR buckets

/-- A key of a Babel `ObjectProperty` (`createObjectKey`). -/
inductive ObjKeyR where
  | ident (s : String)
  | strKey (s : String)

/-- The subset of Babel AST nodes built by `generate-react.ts`.  JSX
attributes are `(name, value)` pairs where the value is a `strLit` or a
`jsxExprContainer`. -/
inductive BExpr where
  | nullLit
  | strLit (s : String)
  | numLit (n : Int)
  | boolLit (b : Bool)
  | identifier (name : String)
  | arrayExpr (elems : List BExpr)
  | objectExpr (props : List (ObjKeyR × BExpr))
  | jsxText (s : String)
  | jsxExprContainer (e : BExpr)
  | jsxElement (name : String) (attrs : List (String × BExpr))
               (children : List BExpr) (selfClosing : Bool)
  | jsxFragment (children : List BExpr)

/-- `t.isNullLiteral`. -/
def BExpr.isNullLit : BExpr → Bool
  | .nullLit => true
  | _ => false

/-- `t.isStringLiteral`. -/
def BExpr.isStrLit : BExpr → Bool
  | .strLit _ => true
  | _ => false

/-- `t.isJSXElement`. -/
def BExpr.isJSXElem : BExpr → Bool
  | .jsxElement _ _ _ _ => true
  | _ => false

/-- `t.isJSXFragment`. -/
def BExpr.isJSXFrag : BExpr → Bool
  | .jsxFragment _ => true
  | _ => false

/-- `t.isValidIdentifier(key)` (reserved words are not modelled; no claim
depends on them). -/
def isValidIdentR (s : String) : Bool :=
  match s.data with
  | [] => false
  | c :: cs =>
    (c.isAlpha || c == '_' || c == '$') &&
      cs.all (fun d => d.isAlphanum || d == '_' || d == '$')

/-- `createObjectKey(key)`. -/
def createObjectKeyR (k : String) : ObjKeyR :=
  if isValidIdentR k then .ident k else .strKey k

mutual
/-- `t.valueToNode(v)` for JSON-like values (`undefined` becomes the
identifier `undefined`). -/
def valueToNodeB : Value → BExpr
  | .vUndefined => .identifier "undefined"
  | .vNull => .nullLit
  | .vStr s => .strLit s
  | .vNum n => .numLit n
  | .vBool b => .boolLit b
  | .vArr items => .arrayExpr (valueToNodeList items)
  | .vObj fs => .objectExpr (valueToNodeFields fs)
  | .vCodegen c => .objectExpr [(createObjectKeyR "__codegen", .strLit c)]

/-- Elementwise `valueToNode` for array elements. -/
def valueToNodeList : List Value → List BExpr
  | [] => []
  | v :: vs => valueToNodeB v :: valueToNodeList vs

/-- Fieldwise `valueToNode` for object properties. -/
def valueToNodeFields : List (String × Value) → List (ObjKeyR × BExpr)
  | [] => []
  | (k, v) :: fs => (createObjectKeyR k, valueToNodeB v) :: valueToNodeFields fs
end

/-- The `pushChild` helper of `createAttributes`: a null literal is
dropped, a string literal becomes JSX text, JSX elements and fragments are
kept as-is and everything else is wrapped in an expression container. -/
def pushChildR (node : BExpr) : List BExpr :=
  if node.isNullLit then []
  else if node.isStrLit then
    match node with
    | .strLit s => [.jsxText s]
    | _ => []
  else if node.isJSXElem || node.isJSXFrag then [node]
  else [.jsxExprContainer node]

/-- `CodegenComponentTransform` from `generate-react.ts`; `asName` models
`as?`, `importSpecs` the normalised `import?` field, `slotProps` the
slot-name renaming map. -/
structure TransformR where
  asName : Option String
  importSpecs : List CodegenImportR
  mapProps : Option (List (String × Value) → List (String × Value))
  slotProps : List (String × String)

/-- One entry of `config.components` as read by `generateReactComponent`
(only `fields` is consulted). -/
structure ComponentEntryR where
  fields : Option (List (String × FieldDesc))

/-- The closed-over environment of `generateReactComponent`: the schema
`config`, the per-type `components` transform map and the `includeIds`
option. -/
structure EnvR where
  config : List (String × ComponentEntryR)
  components : List (String × TransformR)
  includeIds : Bool

mutual
/-- `createSlotChildren(content)` from `generate-react.ts`: a non-array or
empty value yields no children, otherwise every element is rendered via
`createComponent` with `addKey = true`. -/
def createSlotChildrenR (env : EnvR) (content : Value) (buckets : BucketsR)
    (fuel : Nat) : Except String (List BExpr × BucketsR) :=
  match fuel with
  | 0 => .error outOfFuel
  | f + 1 =>
    match content with
    | .vArr items =>
      if items.isEmpty then .ok ([], buckets)
      else
        items.foldlM (fun (acc : List BExpr × BucketsR) child => do
          let r ← createComponentR env child true acc.2 f
          .ok (acc.1 ++ [r.1], r.2)) ([], buckets)
    | _ => .ok ([], buckets)
termination_by structural fuel

/-- `createArrayExpression(values, fields)` from `generate-react.ts`:
`undefined` elements become null literals, non-array objects go through
`createObjectExpression` (there is no `isComponentData` check here) and
all other elements through `valueToNode`. -/
def createArrayExpressionR (env : EnvR) (values : List Value)
    (fields : Option (List (String × FieldDesc))) (buckets : BucketsR)
    (fuel : Nat) : Except String (BExpr × BucketsR) :=
  match fuel with
  | 0 => .error outOfFuel
  | f + 1 => do
    let folded ← values.foldlM (fun (acc : List BExpr × BucketsR) item => do
      match item with
      | .vUndefined => .ok (acc.1 ++ [BExpr.nullLit], acc.2)
      | .vObj fs => do
        let r ← createObjectExpressionR env fs fields acc.2 f
        .ok (acc.1 ++ [r.1], r.2)
      | .vCodegen c => do
        let r ← createObjectExpressionR env [("__codegen", Value.vStr c)] fields acc.2 f
        .ok (acc.1 ++ [r.1], r.2)
      | other => .ok (acc.1 ++ [valueToNodeB other], acc.2)) ([], buckets)
    .ok (BExpr.arrayExpr folded.1, folded.2)
termination_by structural fuel

/-- `createObjectExpression(value, fields)` from `generate-react.ts`:
`undefined`-valued keys are dropped, every other value is serialized via
`createFieldValueNode` against the sub-descriptor of its key. -/
def createObjectExpressionR (env : EnvR) (value : List (String × Value))
    (fields : Option (List (String × FieldDesc))) (buckets : BucketsR)
    (fuel : Nat) : Except String (BExpr × BucketsR) :=
  match fuel with
  | 0 => .error outOfFuel
  | f + 1 => do
    let entries := value.filter (fun kv => match kv.2 with | .vUndefined => false | _ => true)
    let folded ← entries.foldlM (fun (acc : List (ObjKeyR × BExpr) × BucketsR) kv => do
      let fld := fields.bind (fun fs => lookupA fs kv.1)
      let r ← createFieldValueNodeR env kv.2 fld acc.2 f
      match r.1 with
      | none => .ok (acc.1, r.2)
      | some node => .ok (acc.1 ++ [(createObjectKeyR kv.1, node)], r.2)) ([], buckets)
    .ok (BExpr.objectExpr folded.1, folded.2)
termination_by structural fuel

/-- `createFieldValueNode(value, field)` from `generate-react.ts`.
`undefined` yields no node; without a descriptor the value is a generic
literal; a `slot` descriptor resolves the slot (no children → null
literal, one child → that child bare, several → a fragment); `array` and
`object` descriptors recurse; anything else is a literal. -/
def createFieldValueNodeR (env : EnvR) (value : Value) (field : Option FieldDesc)
    (buckets : BucketsR) (fuel : Nat) : Except String (Option BExpr × BucketsR) :=
  match fuel with
  | 0 => .error outOfFuel
  | f + 1 =>
    match value with
    | .vUndefined => .ok (none, buckets)
    | v =>
      match field with
      | none => .ok (some (valueToNodeB v), buckets)
      | some fld =>
        if fld.type == "slot" then do
          let r ← createSlotChildrenR env v buckets f
          match r.1 with
          | [] => .ok (some BExpr.nullLit, r.2)
          | [e] => .ok (some e, r.2)
          | es => .ok (some (BExpr.jsxFragment es), r.2)
        else if fld.type == "array" then do
          let arrVals := match v with | .vArr xs => xs | _ => []
          let r ← createArrayExpressionR env arrVals fld.arrayFields buckets f
          .ok (some r.1, r.2)
        else if fld.type == "object" then do
          let objVal :=
            match v with
            | .vObj fs => fs
            | .vCodegen c => [("__codegen", Value.vStr c)]
            | _ => []
          let r ← createObjectExpressionR env objVal fld.objectFields buckets f
          .ok (some r.1, r.2)
        else .ok (some (valueToNodeB v), buckets)
termination_by structural fuel

/-- `createAttributes(component, componentFields, transform)` from
`generate-react.ts`, returning the attribute list, the children list and
the updated buckets.  The fold follows the source's `propEntries.forEach`. -/
def createAttributesR (env : EnvR) (props : List (String × Value))
    (fields : Option (List (String × FieldDesc))) (transform : Option TransformR)
    (buckets : BucketsR) (fuel : Nat) :
    Except String (List (String × BExpr) × List BExpr × BucketsR) :=
  match fuel with
  | 0 => .error outOfFuel
  | f + 1 =>
    props.foldlM (fun (acc : List (String × BExpr) × List BExpr × BucketsR) kv => do
      let name := kv.1
      let value := kv.2
      if !env.includeIds && name == "id" then .ok acc
      else
        let field := fields.bind (fun fs => lookupA fs name)
        let isSlot := match field with | some fl => fl.type == "slot" | none => false
        let slotMapped : Option String :=
          if isSlot then transform.bind (fun t => lookupA t.slotProps name) else none
        let mappedName :=
          match slotMapped with
          | some m => if m == "" then name else m
          | none => name
        if mappedName == "children" then
          if isSlot then do
            let r ← createSlotChildrenR env value acc.2.2 f
            .ok (acc.1, acc.2.1 ++ r.1, r.2)
          else do
            let r ← createFieldValueNodeR env value field acc.2.2 f
            match r.1 with
            | none => .ok (acc.1, acc.2.1, r.2)
            | some node => .ok (acc.1, acc.2.1 ++ pushChildR node, r.2)
        else if isSlot then do
          let r ← createSlotChildrenR env value acc.2.2 f
          if (mappedName == "children" || name == "children") && !r.1.isEmpty then
            .ok (acc.1, acc.2.1 ++ r.1, r.2)
          else do
            let r2 ← createFieldValueNodeR env value field r.2 f
            match r2.1 with
            | none => .ok (acc.1, acc.2.1, r2.2)
            | some e =>
              .ok (acc.1 ++ [(mappedName, BExpr.jsxExprContainer e)], acc.2.1, r2.2)
        else do
          let r ← createFieldValueNodeR env value field acc.2.2 f
          match r.1 with
          | none => .ok (acc.1, acc.2.1, r.2)
          | some node =>
            match node with
            | BExpr.strLit s =>
              .ok (acc.1 ++ [(mappedName, BExpr.strLit s)], acc.2.1, r.2)
            | n =>
              .ok (acc.1 ++ [(mappedName, BExpr.jsxExprContainer n)], acc.2.1, r.2))
      ([], [], buckets)
termination_by structural fuel

/-- `createComponent(component, addKey)` from `generate-react.ts`.  Fails
when the node's type has no entry in `config.components`; otherwise
resolves the transform, registers its imports, applies `mapProps`, builds
attributes and children, optionally synthesizes a `key` attribute from the
node's `id` prop, and emits the JSX element. -/
def createComponentR (env : EnvR) (component : Value) (addKey : Bool)
    (buckets : BucketsR) (fuel : Nat) : Except String (BExpr × BucketsR) :=
  match fuel with
  | 0 => .error outOfFuel
  | f + 1 => do
    let typeStr := jsToString (getFieldV component "type")
    match lookupA env.config typeStr with
    | none =>
      .error ("Component \"" ++ typeStr ++ "\" is not defined in the provided config.")
    | some componentConfig => do
      let transform := lookupA env.components typeStr
      let componentIdentifier :=
        match transform.bind (fun t => t.asName) with
        | some a => if a == "" then typeStr else a
        | none => typeStr
      let buckets ← registerImportsR buckets ((transform.map (fun t => t.importSpecs)).getD [])
      let origProps := match getFieldV component "props" with | .vObj fs => fs | _ => []
      let props :=
        match transform.bind (fun t => t.mapProps) with
        | some mp => mp origProps
        | none => origProps
      let r ← createAttributesR env props componentConfig.fields transform buckets f
      let attrs := r.1
      let children := r.2.1
      let buckets2 := r.2.2
      let idVal := (lookupA origProps "id").getD .vUndefined
      let attrs :=
        if addKey && isTruthy idVal then
          if attrs.any (fun a => a.1 == "key") then attrs
          else ("key", BExpr.strLit (jsToString idVal)) :: attrs
        else attrs
      .ok (BExpr.jsxElement componentIdentifier attrs children children.isEmpty, buckets2)
termination_by structural fuel
end

/-- An import specifier of the final import declarations
(`importDefaultSpecifier` or `importSpecifier(local, imported)`). -/
inductive ImportSpecifierR where
  | defaultSpec (localName : String)
  | namedSpec (localName : String) (imported : String)

/-- An `importDeclaration` of the final module. -/
structure ImportDeclR where
  specifiers : List ImportSpecifierR
  source : String

/-- The result of `generateReactComponent` at the AST level.  The source
feeds the statements to `@babel/generator` (an external package, not part
of this repository), so the model stops at the AST the source builds:
the react-import flag, the sorted import declarations, the fragment
returned by the generated function, and the function name. -/
structure GenerateReactResultR where
  reactImportIncluded : Bool
  importDecls : List ImportDeclR
  returnedJSX : BExpr
  componentName : String

/-- `generateReactComponent(options)` from `generate-react.ts`: render the
top-level content into a fragment, then emit the buckets sorted by path,
each with the (truthy) default specifier first and the named specifiers
sorted by exported name. -/
def generateReactComponentR (env : EnvR) (content : List Value)
    (componentName : String) (reactImport : Bool) (fuel : Nat) :
    Except String GenerateReactResultR := do
  let folded ← content.foldlM (fun (acc : List BExpr × BucketsR) c => do
    let r ← createComponentR env c false acc.2 fuel
    .ok (acc.1 ++ [r.1], r.2)) ([], [])
  let importDecls := (sortByKey (fun kv => kv.1) folded.2).map (fun kv =>
    let namedImports := sortByKey (fun nk => nk.1) kv.2.named
    let specs :=
      (match kv.2.defaultName with
        | some d => if d == "" then [] else [ImportSpecifierR.defaultSpec d]
        | none => []) ++
      namedImports.map (fun nk =>
        ImportSpecifierR.namedSpec
          (match nk.2 with
            | some a => if a == "" then nk.1 else a
            | none => nk.1)
          nk.1)
    ({ specifiers := specs, source := kv.1 } : ImportDeclR))
  .ok { reactImportIncluded := reactImport,
        importDecls := importDecls,
        returnedJSX := BExpr.jsxFragment folded.1,
        componentName := componentName }

/-- `Except.isOk` specialised to our result types. -/
def exceptIsOk {α : Type} : Except String α → Bool
  | .ok _ => true
  | .error _ => false

/-- A content node `{ type: t, props: {} }` with empty props. -/
def mkNode (t : String) : Value := .vObj [("type", .vStr t), ("props", .vObj [])]

/-- A schema with no registered component types. -/
def cfgEmpty : Config001 := { components := [] }

/-- A leaf component config with no fields and no codegen block. -/
def leafComp001 : Component001 := { fields := none, codegen := none }

/-- A component config whose codegen block declares a default import of
local name `d` from path `p`. -/
def defaultImportComp001 (p d : String) : Component001 :=
  { fields := none,
    codegen := some { component := none, importSpecs := [.defaultImp p d],
                      mapProps := none, skip := false } }

/-- Schema for the import-conflict run: `Alpha` requests default `A` from
`"p"` and `Beta` requests default `B` from the same path. -/
def cfgConflict : Config001 :=
  { components := [("Alpha", defaultImportComp001 "p" "A"),
                   ("Beta", defaultImportComp001 "p" "B")] }

/-- Schema for the skip run: `Hidden` is `skip: true` and has a `children`
slot, `Shown` is a plain leaf. -/
def cfgSkip : Config001 :=
  { components := [
      ("Hidden", { fields := some [("children", .mk "slot" none none)],
                   codegen := some { component := none, importSpecs := [],
                                     mapProps := none, skip := true } }),
      ("Shown", leafComp001)] }

/-- The skip context at indent size 2. -/
def ctxSkip : Ctx001 := { config := cfgSkip, indentSize := 2 }

/-- A skipped node whose `children` slot holds a node of a type that is
not registered at all — rendering that slot would fail, so the skip must
short-circuit before slot rendering for the run to succeed. -/
def hiddenNode : Value :=
  .vObj [("type", .vStr "Hidden"),
         ("props", .vObj [("children", .vArr [mkNode "Missing"])])]

/-- A plain node of type `Shown`. -/
def shownNode : Value := mkNode "Shown"

/-- Buckets of the `generate-react` registry holding a default name `UI`
and the named import `Icon as MyIcon` for path `"ui"`. -/
def bucketsUI : BucketsR :=
  [("ui", { named := [("Icon", some "MyIcon")], defaultName := some "UI" })]

/-- The named-import spec `{ path: "antd", name: "Row" }` used with local
name `Row` in the repository's own `generateReactCode` test. -/
def rowImport : CodegenImportRC := { path := "antd", name := some "Row", isDefault := false }

/-- Options for a `generateReactCode` run over a single node of the
unregistered type `Mystery` with an empty component map. -/
def mysteryOptions : GenerateReactCodeOptionsRC :=
  { config := cfgEmpty, content := [mkNode "Mystery"], componentMap := [],
    componentName := "GeneratedPage", exportDefault := false,
    includeImports := true, includeReactImport := false, omitIds := true,
    wrapperOpen := "<>", wrapperClose := "</>" }

/-- An environment for `generateReactComponent` with a `Button` component
(one `text` field) and a `Section` with a `body` slot; no transforms. -/
def envSlot : EnvR :=
  { config := [
      ("Button", { fields := some [("label", .mk "text" none none)] }),
      ("Section", { fields := some [("title", .mk "text" none none),
                                    ("body", .mk "slot" none none)] })],
    components := [],
    includeIds := false }

/-- A `Button` node with `label: "Go"`. -/
def buttonGo : Value :=
  .vObj [("type", .vStr "Button"), ("props", .vObj [("label", .vStr "Go")])]

/-- The element `generateReactComponent` renders for `buttonGo`. -/
def buttonGoElem : BExpr :=
  .jsxElement "Button" [("label", .strLit "Go")] [] true

/-- A value of Content-Node shape (`type` and `props` keys) appearing as a
data value inside an array field. -/
def nestedCompVal : Value := mkNode "Nested"

/-- A registry of `generateJSX` with entries registered in descending path
order and named imports in descending name order. -/
def regUnsorted : Registry001 :=
  [("z", { defaultName := some "Z", named := [("B", none), ("A", none)] }),
   ("a", { defaultName := none, named := [("N", none)] })]

/-- The `"z"` entry of `formatImports001 regUnsorted`. -/
def importZ : GeneratedImport :=
  { path := "z", defaultName := some "Z",
    named := [{ name := "A", aliasName := none }, { name := "B", aliasName := none }] }

theorem renderNode001_skip (ctx : Ctx001) (n : Value) (comp : Component001)
    (h1 : lookupA ctx.config.components (jsToString (getFieldV n "type")) = some comp)
    (h2 : (comp.codegen.map (fun cg => cg.skip)).getD false = true) :
    ∀ (depth : Nat) (reg : Registry001) (fuel : Nat),
      renderNode001 n depth ctx reg fuel = .ok (none, reg) := by
  intro depth reg fuel
  simp [renderNode001, h1, h2]

theorem renderNode001_unknown (ctx : Ctx001) (n : Value)
    (h : lookupA ctx.config.components (jsToString (getFieldV n "type")) = none) :
    ∀ (depth : Nat) (reg : Registry001) (fuel : Nat),
      renderNode001 n depth ctx reg fuel =
        .error ("No component config found for \"" ++ jsToString (getFieldV n "type") ++ "\".") := by
  intro depth reg fuel
  simp [renderNode001, h]

theorem foldlM_middle_id {β γ : Type} (g : γ → β → Except String γ) (n : β)
    (hn : ∀ acc, g acc n = .ok acc) :
    ∀ (l1 l2 : List β) (init : γ),
      List.foldlM g init (l1 ++ n :: l2) = List.foldlM g init (l1 ++ l2) := by
  intro l1
  induction l1 with
  | nil =>
    intro l2 init
    simp only [List.nil_append, List.foldlM_cons, hn]
    rfl
  | cons x xs ih =>
    intro l2 init
    simp only [List.cons_append, List.foldlM_cons]
    cases h : g init x with
    | error e => rfl
    | ok b => exact ih l2 b

theorem foldlM_exists_error {β γ : Type} (g : γ → β → Except String γ) (bad : β → Prop)
    (hbad : ∀ b acc, bad b → ∃ m, g acc b = .error m) :
    ∀ (l : List β) (init : γ), (∃ x ∈ l, bad x) →
      ∃ m, List.foldlM g init l = .error m := by
  intro l
  induction l with
  | nil => intro init h; obtain ⟨x, hx, _⟩ := h; cases hx
  | cons y ys ih =>
    intro init h
    obtain ⟨x, hx, hbx⟩ := h
    cases hx with
    | head =>
      obtain ⟨m, hm⟩ := hbad y init hbx
      exact ⟨m, by simp only [List.foldlM_cons, hm]; rfl⟩
    | tail _ hx' =>
      cases hg : g init y with
      | error e => exact ⟨e, by simp only [List.foldlM_cons, hg]; rfl⟩
      | ok b =>
        obtain ⟨m, hm⟩ := ih b ⟨x, hx', hbx⟩
        exact ⟨m, by simp only [List.foldlM_cons, hg]; exact hm⟩

/-- C1 (amended): a top-level content node whose type string has no entry
in `config.components` makes `generateJSX` fail: the run returns an error
and no output value at all (in particular no partial JSX and no import
list), regardless of how many sibling nodes are registered and of the
fuel bound. -/
theorem c1_unknown_type_generateJSX_fails :
    ∀ (cfg : Config001) (content : List Value) (baseDepth indentSize fuel : Nat),
      (∃ item ∈ content,
        lookupA cfg.components (jsToString (getFieldV item "type")) = none) →
      exceptIsOk (generateJSX001 cfg content baseDepth indentSize fuel) = false := by
  intro cfg content baseDepth indentSize fuel hbad
  have hne : content.isEmpty = false := by
    obtain ⟨item, hmem, _⟩ := hbad
    cases content with
    | nil => cases hmem
    | cons a l => rfl
  have herr : ∃ m, renderContent001 content (baseDepth + 1)
      { config := cfg, indentSize := indentSize } [] fuel = .error m := by
    cases fuel with
    | zero =>
      refine ⟨outOfFuel, ?_⟩
      simp [renderContent001, hne]
    | succ f =>
      have hfold := foldlM_exists_error
        (fun (acc : List String × Registry001) item => do
          let r ← renderNode001 item (baseDepth + 1)
            { config := cfg, indentSize := indentSize } acc.2 f
          .ok (acc.1 ++ (match r.1 with | some s => [s] | none => []), r.2))
        (fun item => lookupA cfg.components (jsToString (getFieldV item "type")) = none)
        (by
          intro b acc hb
          have h := renderNode001_unknown { config := cfg, indentSize := indentSize } b hb
            (baseDepth + 1) acc.2 f
          exact ⟨_, by simp only [h]; rfl⟩)
        content ([], []) hbad
      obtain ⟨m, hm⟩ := hfold
      refine ⟨m, ?_⟩
      simp only [renderContent001, hne, Bool.false_eq_true, if_false, hm]
      rfl
  obtain ⟨m, hm⟩ := herr
  simp [generateJSX001, hm]
  rfl

/-- C1 witness: a tree whose single node has the unregistered type
`Ghost` makes `generateJSX` fail. -/
theorem c1_unknown_type_witness :
    exceptIsOk (generateJSX001 cfgEmpty [mkNode "Ghost"] 0 2 5) = false :=
  c1_unknown_type_generateJSX_fails cfgEmpty [mkNode "Ghost"] 0 2 5
    ⟨mkNode "Ghost", List.Mem.head _, rfl⟩

/-- C1 counterexample: `generateReactCode` never consults the component
schema.  On the same shape of input — a single node of type `Mystery`
that has no entry in the (empty) schema — it succeeds and produces full
output with `Mystery` as the tag, instead of failing with
`UnknownComponentType` as the claim requires. -/
theorem c1_generateReactCode_unknown_type_succeeds :
    generateReactCodeRC mysteryOptions 4 =
      ("export function GeneratedPage() \x7b\n  return (\n    <>\n    <Mystery />\n    </>\n  );\n\x7d",
       []) ∧
    lookupA mysteryOptions.config.components "Mystery" = none := by
  exact ⟨rfl, rfl⟩

/-- C5: generation is deterministic for each of the three generators: on
identical inputs (configuration, content, options, fuel) each produces
identical output, the import lists included.  In this embedding all three
generators are pure functions of their arguments — the import registry is
created fresh per call and threaded explicitly — so two runs coincide
definitionally. -/
theorem c5_generation_deterministic :
    (∀ (cfg : Config001) (content : List Value) (bd sz fuel : Nat),
      generateJSX001 cfg content bd sz fuel = generateJSX001 cfg content bd sz fuel) ∧
    (∀ (o : GenerateReactCodeOptionsRC) (fuel : Nat),
      generateReactCodeRC o fuel = generateReactCodeRC o fuel) ∧
    (∀ (env : EnvR) (content : List Value) (cn : String) (ri : Bool) (fuel : Nat),
      generateReactComponentR env content cn ri fuel =
        generateReactComponentR env content cn ri fuel) :=
  ⟨fun _ _ _ _ _ => rfl, fun _ _ => rfl, fun _ _ _ _ _ => rfl⟩

/-- C7: the claim (re-registration of an identical spec is a no-op and the
finalized list holds no duplicate specifier) is what the source's dedup
guard clearly intends, but the guard in `generate-react-code.ts` compares
the stored alias (`undefined` for an alias-less entry) against the local
name, so re-registering `{ path: "antd", name: "Row" }` under local name
`Row` changes the registry and yields the duplicate-binding statement
`import { Row, Row } from "antd";`. -/
theorem c7_duplicate_named_import_bug :
    registerImportRC "Row" rowImport (registerImportRC "Row" rowImport []) =
      [("antd", { defaultImport := none,
                  named := [{ name := "Row", aliasName := none },
                            { name := "Row", aliasName := none }] })] ∧
    registerImportRC "Row" rowImport [] =
      [("antd", { defaultImport := none,
                  named := [{ name := "Row", aliasName := none }] })] ∧
    buildImportsRC (registerImportRC "Row" rowImport (registerImportRC "Row" rowImport [])) false =
      ["import \x7b Row, Row \x7d from \"antd\";"] :=
  ⟨rfl, rfl, rfl⟩

/-- C9: a `CodegenExpression` prop value is never re-serialized as a data
literal: `formatAttribute` emits the wrapped string directly as the
attribute's braced expression code (indenting its lines when it is
multiline), rather than passing it to the `JSON.stringify` object path. -/
theorem c9_codegen_expression_verbatim :
    ∀ (key code : String) (depth indentSize : Nat),
      formatAttribute001 key (.vCodegen code) depth indentSize =
        some (if containsChar code '\n' = false
          then key ++ "=\x7b" ++ code ++ "\x7d"
          else key ++ "=\x7b\n" ++ indentLines code (depth + 1) indentSize ++ "\n"
            ++ indentStr depth indentSize ++ "\x7d") := by
  intro key code depth indentSize
  cases h : containsChar code '\n' <;> simp [formatAttribute001, h]

/-- C10: generation of an empty (or absent, since `data.content || []`
normalises the two) top-level content sequence succeeds in all three
generators: `generateJSX` returns the empty fragment `<></>` with an
empty import list; `generateReactCode` emits the placeholder comment body
and no import lines; `generateReactComponent` returns an empty fragment
and no import declarations. -/
theorem c10_empty_content_succeeds :
    (∀ (cfg : Config001) (bd sz fuel : Nat),
      generateJSX001 cfg [] bd sz fuel =
        .ok { jsx := indentStr bd sz ++ "<></>", imports := [] }) ∧
    (∀ (cfg : Config001) (cm : List (String × CodegenComponentConfigRC)) (oi : Bool) (fuel : Nat),
      generateReactCodeRC
        { config := cfg, content := [], componentMap := cm,
          componentName := "GeneratedPage", exportDefault := false,
          includeImports := true, includeReactImport := false, omitIds := oi,
          wrapperOpen := "<>", wrapperClose := "</>" } fuel =
        ("export function GeneratedPage() \x7b\n  return (\n    <>\n      \x7b/* No components in data */\x7d\n    </>\n  );\n\x7d",
         [])) ∧
    (∀ (env : EnvR) (cn : String) (ri : Bool) (fuel : Nat),
      generateReactComponentR env [] cn ri fuel =
        .ok { reactImportIncluded := ri, importDecls := [],
              returnedJSX := .jsxFragment [], componentName := cn }) :=
  ⟨fun _ _ _ fuel => by cases fuel <;> rfl, fun _ _ _ _ => rfl, fun _ _ _ _ => rfl⟩

/-- C2 (amended): only `generateReactComponent`'s `registerImport` detects
conflicts, and only when the previously stored name is truthy (a nonempty
string): registering a default import for a path whose bucket already
holds a different nonempty default local name throws, and registering a
named import whose stored alias for that exported name is a nonempty
string different from the incoming alias throws. -/
theorem c2_registerImport_react_conflicts :
    (∀ (buckets : BucketsR) (path d e : String) (b : ImportBucketR),
      lookupA buckets path = some b → b.defaultName = some d → d ≠ "" → d ≠ e →
      registerImportOneR buckets (.defaultImp path e) =
        .error ("Multiple default imports declared for \"" ++ path ++ "\". Received \""
          ++ d ++ "\" and \"" ++ e ++ "\".")) ∧
    (∀ (buckets : BucketsR) (path imp a : String) (al : Option String) (b : ImportBucketR),
      lookupA buckets path = some b → lookupA b.named imp = some (some a) →
      a ≠ "" → some a ≠ al →
      registerImportOneR buckets (.named path imp al) =
        .error ("Conflicting aliases declared for \"" ++ imp ++ "\" from \"" ++ path ++ "\".")) := by
  constructor
  · intro buckets path d e b hlk hdn hne hde
    simp [registerImportOneR, hlk, hdn, truthyS, hne, hde]
  · intro buckets path imp a al b hlk hal hne hna
    simp [registerImportOneR, hlk, hal, truthyS, hne, hna]

/-- C2 witness: on a bucket holding default `UI` and alias `MyIcon` for
`Icon` from path `ui`, a different default and a different alias both
raise. -/
theorem c2_registerImport_react_conflicts_witness :
    registerImportOneR bucketsUI (.defaultImp "ui" "Other") =
      .error ("Multiple default imports declared for \"ui\". Received \"UI\" and \"Other\".") ∧
    registerImportOneR bucketsUI (.named "ui" "Icon" (some "Alias2")) =
      .error ("Conflicting aliases declared for \"Icon\" from \"ui\".") :=
  ⟨c2_registerImport_react_conflicts.1 bucketsUI "ui" "UI" "Other"
      { named := [("Icon", some "MyIcon")], defaultName := some "UI" }
      rfl rfl (by decide) (by decide),
   c2_registerImport_react_conflicts.2 bucketsUI "ui" "Icon" "MyIcon" (some "Alias2")
      { named := [("Icon", some "MyIcon")], defaultName := some "UI" }
      rfl rfl (by decide) (by decide)⟩

/-- C2 counterexample: in `generateJSX` (`src/unnamed/part_001`) the
registry never fails.  One generation run whose two nodes register the
conflicting default imports `A` and `B` for the same path `p` completes
successfully, and the second spec is silently ignored: the finalized list
keeps only default `A`.  The claim's "fails immediately at registration
time with an ImportConflict error; the conflicting spec is never silently
overwritten or silently ignored" is therefore false for this registry. -/
theorem c2_generateJSX_conflict_silently_ignored :
    generateJSX001 cfgConflict [mkNode "Alpha", mkNode "Beta"] 0 2 3 =
      .ok { jsx := "<>\n  <Alpha />\n  <Beta />\n</>",
            imports := [{ path := "p", defaultName := some "A", named := [] }] } := by
  rfl

/-- C3 (amended): in `generateReactComponent`, a slot field whose content
renders to no element resolves to a null literal, exactly one element
resolves to that element bare, and two or more resolve to a single
anonymous fragment wrapping them in order.  (In `generateJSX` every
nonempty slot expression is fragment-wrapped even for a single child —
see the counterexample — and an empty slot resolves to `null` and is
omitted from the default attribute mapping.) -/
theorem c3_slot_bare_wrap_rule :
    ∀ (env : EnvR) (v : Value) (fld : FieldDesc) (bk bk' : BucketsR) (f : Nat)
      (cs : List BExpr),
      v ≠ .vUndefined →
      fld.type = "slot" →
      createSlotChildrenR env v bk f = .ok (cs, bk') →
      createFieldValueNodeR env v (some fld) bk (f + 1) =
        .ok (some (match cs with
          | [] => BExpr.nullLit
          | [e] => e
          | es => BExpr.jsxFragment es), bk') := by
  intro env v fld bk bk' f cs hv hft hsc
  have hbeq : (fld.type == "slot") = true := by rw [hft]; rfl
  cases v with
  | vUndefined => exact absurd rfl hv
  | vNull => simp [createFieldValueNodeR, hbeq, hsc]; cases cs with
    | nil => rfl
    | cons e es => cases es <;> rfl
  | vBool b => simp [createFieldValueNodeR, hbeq, hsc]; cases cs with
    | nil => rfl
    | cons e es => cases es <;> rfl
  | vNum n => simp [createFieldValueNodeR, hbeq, hsc]; cases cs with
    | nil => rfl
    | cons e es => cases es <;> rfl
  | vStr s => simp [createFieldValueNodeR, hbeq, hsc]; cases cs with
    | nil => rfl
    | cons e es => cases es <;> rfl
  | vArr items => simp [createFieldValueNodeR, hbeq, hsc]; cases cs with
    | nil => rfl
    | cons e es => cases es <;> rfl
  | vObj fs => simp [createFieldValueNodeR, hbeq, hsc]; cases cs with
    | nil => rfl
    | cons e es => cases es <;> rfl
  | vCodegen c => simp [createFieldValueNodeR, hbeq, hsc]; cases cs with
    | nil => rfl
    | cons e es => cases es <;> rfl

/-- C3 witness: for a slot whose content renders exactly the single
`Button` element, `createFieldValueNode` resolves to that element bare,
with no fragment wrapper. -/
theorem c3_slot_bare_wrap_rule_witness :
    createFieldValueNodeR envSlot (.vArr [buttonGo]) (some (.mk "slot" none none)) [] 6 =
      .ok (some buttonGoElem, []) :=
  c3_slot_bare_wrap_rule envSlot (.vArr [buttonGo]) (.mk "slot" none none) [] [] 5
    [buttonGoElem] (by intro h; exact Value.noConfusion h) rfl rfl

/-- C3 counterexample: in `generateJSX` (`src/unnamed/part_001`,
`createSlotExpressions`) a slot whose content rendered to exactly one
element is still wrapped: the resolved slot expression for the single
rendered element `<Button />` is the fragment `<><Button /></>`, not the
element itself, contradicting the claim's "the resolved slot expression is
that element itself with no wrapper". -/
theorem c3_generateJSX_single_child_wrapped :
    createSlotExpressions001 [("extra", "<Button />")] =
      [("extra", some "<><Button /></>")] ∧
    (("<><Button /></>" : String) == "<Button />") = false :=
  ⟨rfl, rfl⟩

/-- C4 (amended): in `generateJSX`'s `formatImports`, regardless of the
registration order recorded in the registry, the finalized list is sorted
by source path ascending and each entry's named specifiers are sorted by
exported name ascending; and in `formatImportStatements` the (truthy)
default specifier precedes the braced named specifiers within one
statement.  (`generateReactComponent` sorts the same way, but
`generateReactCode` leaves named specifiers in registration order — see
the counterexample.) -/
theorem c4_formatImports_sorted :
    (∀ reg : Registry001,
      List.Sorted (keyRel GeneratedImport.path) (formatImports001 reg)) ∧
    (∀ (reg : Registry001) (e : GeneratedImport),
      e ∈ formatImports001 reg → List.Sorted (keyRel NamedSpec.name) e.named) ∧
    (∀ (path d : String) (named : List NamedSpec) (ns : String),
      ns = String.intercalate ", " (named.map fmtNamedSpec001) →
      d ≠ "" → ns ≠ "" →
      formatImportStatements001 [{ path := path, defaultName := some d, named := named }] =
        ["import " ++ (d ++ ", " ++ ("\x7b " ++ ns ++ " \x7d")) ++ " from \"" ++ path ++ "\";"]) := by
  refine ⟨?_, ?_, ?_⟩
  · intro reg
    exact List.sorted_insertionSort _ _
  · intro reg e he
    unfold formatImports001 sortByKey at he
    have he' := (List.perm_insertionSort (keyRel GeneratedImport.path) _).mem_iff.mp he
    rw [List.mem_map] at he'
    obtain ⟨x, _, hx⟩ := he'
    have : e.named = List.insertionSort (keyRel NamedSpec.name) x.named := by
      rw [← hx]
    rw [this]
    exact List.sorted_insertionSort _ _
  · intro path d named ns hns hd hn
    simp only [formatImportStatements001, List.filterMap]
    rw [← hns]
    have hdb : (d == "") = false := by
      cases hb : d == "" with
      | false => rfl
      | true => exact absurd (by simpa using hb) hd
    have hnb : (ns == "") = false := by
      cases hb : ns == "" with
      | false => rfl
      | true => exact absurd (by simpa using hb) hn
    simp [hdb, hnb]
    rfl

/-- C4 witness: a registry whose paths were registered as `z` then `a`
and whose `z`-entry named imports were registered as `B` then `A`
finalizes path-sorted with name-sorted named specifiers, and a statement
with a default and a named part puts the default first. -/
theorem c4_formatImports_sorted_witness :
    List.Sorted (keyRel GeneratedImport.path) (formatImports001 regUnsorted) ∧
    List.Sorted (keyRel NamedSpec.name) importZ.named ∧
    formatImportStatements001
        [{ path := "p", defaultName := some "D",
           named := [{ name := "N", aliasName := none }] }] =
      ["import " ++ ("D" ++ ", " ++ ("\x7b " ++ "N" ++ " \x7d")) ++ " from \"" ++ "p" ++ "\";"] :=
  ⟨c4_formatImports_sorted.1 regUnsorted,
   c4_formatImports_sorted.2.1 regUnsorted importZ (by decide),
   c4_formatImports_sorted.2.2 "p" "D" [{ name := "N", aliasName := none }] "N"
     rfl (by decide) (by decide)⟩

/-- C4 counterexample: `generateReactCode`'s `buildImports` keeps named
specifiers in registration order.  Registering exported names `Z` then `A`
for the same path yields `import { Z, A } from "p";`, although `A` sorts
strictly before `Z` — the finalized list's named specifiers are not
ordered by exported name ascending. -/
theorem c4_buildImports_named_unsorted :
    buildImportsRC
        (registerImportRC "A" { path := "p", name := some "A", isDefault := false }
          (registerImportRC "Z" { path := "p", name := some "Z", isDefault := false } []))
        false =
      ["import \x7b Z, A \x7d from \"p\";"] ∧
    strLe "Z" "A" = false :=
  ⟨rfl, rfl⟩

/-- C6: a node whose component config is marked `skip: true` produces no
output in `generateJSX`: `renderNode` returns `null` immediately — before
touching its props, its nested slot content (which is therefore never
rendered, whatever it contains) or the import registry — and rendering a
content sequence with the skipped node gives exactly the same result as
rendering the sequence with the node removed. -/
theorem c6_skip_propagation :
    ∀ (ctx : Ctx001) (n : Value) (comp : Component001) (l1 l2 : List Value)
      (depth f : Nat) (reg : Registry001),
      lookupA ctx.config.components (jsToString (getFieldV n "type")) = some comp →
      (comp.codegen.map (fun cg => cg.skip)).getD false = true →
      renderNode001 n depth ctx reg f = .ok (none, reg) ∧
      renderContent001 (l1 ++ n :: l2) depth ctx reg (f + 1) =
        renderContent001 (l1 ++ l2) depth ctx reg (f + 1) := by
  intro ctx n comp l1 l2 depth f reg hlk hskip
  have h1 := renderNode001_skip ctx n comp hlk hskip
  refine ⟨h1 depth reg f, ?_⟩
  have hg : ∀ acc : List String × Registry001,
      (fun (acc : List String × Registry001) item => do
        let r ← renderNode001 item depth ctx acc.2 f
        Except.ok (acc.1 ++ (match r.1 with | some s => [s] | none => []), r.2)) acc n =
        .ok acc := by
    intro acc
    simp only [h1 depth acc.2 f]
    show Except.ok (acc.1 ++ [], acc.2) = Except.ok acc
    rw [List.append_nil]
  have hLne : (l1 ++ n :: l2).isEmpty = false := by cases l1 <;> rfl
  cases hre : (l1 ++ l2).isEmpty with
  | true =>
    have hnil : l1 ++ l2 = [] := by
      cases l1 with
      | nil =>
        cases l2 with
        | nil => rfl
        | cons a l => simp at hre
      | cons a l => simp at hre
    obtain ⟨hl1, hl2⟩ := List.append_eq_nil.mp hnil
    subst hl1; subst hl2
    simp only [List.nil_append, renderContent001, List.isEmpty_cons, Bool.false_eq_true,
      if_false, List.isEmpty_nil, if_true, List.foldlM_cons, List.foldlM_nil,
      h1 depth reg f]
    rfl
  | false =>
    have hmid := foldlM_middle_id
      (fun (acc : List String × Registry001) item => do
        let r ← renderNode001 item depth ctx acc.2 f
        Except.ok (acc.1 ++ (match r.1 with | some s => [s] | none => []), r.2))
      n hg l1 l2 ([], reg)
    simp only [renderContent001, hLne, hre, Bool.false_eq_true, if_false, hmid]

/-- C6 witness: the skipped `Hidden` node — whose `children` slot even
contains a node of an unregistered type, which would make rendering fail
if the slot were visited — renders to `null` with the registry untouched,
and a sequence containing it renders exactly like the sequence without
it. -/
theorem c6_skip_propagation_witness :
    renderNode001 hiddenNode 1 ctxSkip [] 2 = .ok (none, []) ∧
    renderContent001 ([shownNode] ++ hiddenNode :: []) 1 ctxSkip [] 3 =
      renderContent001 ([shownNode] ++ []) 1 ctxSkip [] 3 :=
  c6_skip_propagation ctxSkip hiddenNode
    { fields := some [("children", .mk "slot" none none)],
      codegen := some { component := none, importSpecs := [],
                        mapProps := none, skip := true } }
    [shownNode] [] 1 2 [] rfl rfl

/-- C8 (amended): in `generateReactCode`, serializing any array prop value
(the generator has no field schema) serializes each element individually,
dispatching on `isComponentData`: an element with both a `type` and a
`props` key is rendered as a nested element via `renderComponent`, every
other element is formatted as a data literal line.  The second conjunct
instantiates this on `[<Widget node>, 5]`: the node becomes the rendered
`<Widget />` element, the number a literal. -/
theorem c8_array_component_dispatch :
    (∀ (items : List Value) (depth : Nat) (ctx : CtxRC) (imports : ImportsRC) (f : Nat),
      formatPropValueRC (.vArr items) depth ctx imports (f + 1) =
        if items.isEmpty then ({ isString := false, value := "[]" }, imports)
        else
          let folded := items.foldl (fun (acc : List String × ImportsRC) item =>
            if isComponentDataRC item then
              let r := renderComponentRC item (depth + 1) ctx acc.2 f
              (acc.1 ++ [r.1], r.2)
            else
              let r := formatPropValueRC item (depth + 1) ctx acc.2 f
              (acc.1 ++ [indentRC (depth + 1) ++ r.1.value], r.2)) ([], imports)
          ({ isString := false,
             value := "[\n" ++ String.intercalate ",\n" folded.1 ++ "\n"
               ++ indentRC depth ++ "]" },
           folded.2)) ∧
    formatPropValueRC (.vArr [mkNode "Widget", .vNum 5]) 1
        { componentMap := [], omitIds := true } [] 4 =
      ({ isString := false, value := "[\n    <Widget />,\n    5\n  ]" }, []) :=
  ⟨fun _ _ _ _ _ => rfl, rfl⟩

/-- C8 counterexample: in `generateReactComponent`'s
`createArrayExpression` there is no Content-Node shape check: an array
element that does match the shape (`nestedCompVal` has both `type` and
`props`) is serialized as an object data literal, not rendered as a
nested component element. -/
theorem c8_createArrayExpression_no_component_detection :
    createArrayExpressionR envSlot [nestedCompVal] none [] 3 =
      .ok (.arrayExpr [.objectExpr [(.ident "type", .strLit "Nested"),
                                    (.ident "props", .objectExpr [])]], []) ∧
    BExpr.isJSXElem (.objectExpr [(.ident "type", .strLit "Nested"),
                                  (.ident "props", .objectExpr [])]) = false ∧
    isComponentDataRC nestedCompVal = true :=
  ⟨rfl, rfl, rfl⟩
